import Mathlib

/-!
Verification of the cash flow forecasting analysis script
(`cashflow_analysis.py`) against its specification.

The script is a single linear pipeline: load workbook → extract three
scenario sheets → compute metrics → compare scenarios → render/export.
We give a shallow embedding of the data model and of every operation the
claims touch: spreadsheet cells become an explicit `CellVal` type with
Python truthiness, the per-scenario DataFrame becomes `ScenarioSeries`
(column lists of cell values), and numeric metrics are functions over
`List ℚ` (the numeric columns).  Chart rendering and CSV writing are
external I/O sinks and are modelled only by the booleans recording
whether the corresponding pipeline stage is reached.
-/

/-- A spreadsheet cell value as seen through openpyxl: an empty cell reads
as `None` (here `blank`), otherwise a number or a string.  This is the
domain of the fixed-layout reads in `extract_scenario_data`. -/
inductive CellVal where
  | blank
  | num (q : ℚ)
  | str (s : String)
deriving DecidableEq

/-- Python truthiness of a cell value: `None`, `0` and `""` are falsy.
This is the test applied by `month_val if month_val else ...` (line 86)
and by `ws.cell(r, c).value or 0` (lines 90-106). -/
def CellVal.truthy : CellVal → Bool
  | .blank => false
  | .num q => q != 0
  | .str s => s != ""

/-- `value or 0` from the amount rows: keep a truthy value, otherwise the
integer zero. -/
def orZero (v : CellVal) : CellVal :=
  if v.truthy then v else .num 0

/-- `month_val if month_val else f"Month {col-1}"` from line 86: keep a
truthy header cell, otherwise the synthetic label for column `col`. -/
def monthLabel (v : CellVal) (col : ℕ) : CellVal :=
  if v.truthy then v else .str ("Month " ++ toString (col - 1))

/-- A worksheet: a total cell grid addressed by (row, column), 1-indexed
as in openpyxl; cells outside the populated area read as `blank`. -/
structure Sheet where
  cell : ℕ → ℕ → CellVal

/-- A workbook: sheet lookup by name; `none` models the `KeyError`
raised by `wb[sheet_name]` for a missing sheet. -/
structure Workbook where
  sheets : String → Option Sheet

/-- The per-scenario DataFrame built by `extract_scenario_data`
(lines 108-115): six parallel columns, one entry per period. -/
structure ScenarioSeries where
  months : List CellVal
  opening : List CellVal
  inflows : List CellVal
  outflows : List CellVal
  net_cf : List CellVal
  closing : List CellVal
deriving DecidableEq

/-- The fixed-layout read of one scenario sheet (lines 84-106): columns
2-10 (1-indexed) of rows 4 (labels), 5 (opening), 13 (inflows),
25 (outflows), 27 (net cash flow), 29 (closing). -/
def extractSheet (ws : Sheet) : ScenarioSeries where
  months := List.ofFn fun i : Fin 9 => monthLabel (ws.cell 4 (i.val + 2)) (i.val + 2)
  opening := List.ofFn fun i : Fin 9 => orZero (ws.cell 5 (i.val + 2))
  inflows := List.ofFn fun i : Fin 9 => orZero (ws.cell 13 (i.val + 2))
  outflows := List.ofFn fun i : Fin 9 => orZero (ws.cell 25 (i.val + 2))
  net_cf := List.ofFn fun i : Fin 9 => orZero (ws.cell 27 (i.val + 2))
  closing := List.ofFn fun i : Fin 9 => orZero (ws.cell 29 (i.val + 2))

/-- `extract_scenario_data(sheet_name)` (lines 72-117): look the sheet up
by name (`wb[sheet_name]` raises for a missing sheet, caught at line 129
as a fatal error) and read the fixed layout. -/
def extract_scenario_data (w : Workbook) (name : String) : Except String ScenarioSeries :=
  match w.sheets name with
  | some ws => .ok (extractSheet ws)
  | none => .error ("SheetNotFound: " ++ name)

/-- Reading an element of a `List.ofFn` at an in-range index. -/
theorem list_getD_ofFn {α : Type} {n : ℕ} (f : Fin n → α) (i : ℕ) (hi : i < n) (d : α) :
    (List.ofFn f).getD i d = f ⟨i, hi⟩ := by
  rw [List.getD_eq_getElem _ d (by simpa using hi)]
  simp

/-- A synthetic month label is a nonempty string, hence truthy. -/
theorem monthLabel_truthy (v : CellVal) (c : ℕ) : (monthLabel v c).truthy = true := by
  have hne : ("Month " ++ toString (c - 1)) ≠ "" := by
    intro hcon
    have hlen := congrArg String.length hcon
    rw [String.length_append] at hlen
    have h6 : "Month ".length = 6 := rfl
    have h0 : ("" : String).length = 0 := rfl
    rw [h6, h0] at hlen
    omega
  unfold monthLabel
  by_cases h : v.truthy = true
  · simp [h]
  · rw [if_neg h]
    simp [CellVal.truthy, hne]

/-- A sheet whose every cell is empty; used to instantiate theorems at a
concrete input. -/
def blankSheet : Sheet := ⟨fun _ _ => CellVal.blank⟩

/-- Claim C1: for every scenario sheet present in the workbook the
extractor returns exactly 9 records (columns 2-10 of the 1-indexed grid);
an empty cell yields numeric zero in each of the five amount rows, an
empty cell in the period-label row yields the synthetic label
`"Month {i+1}"` for column offset `i` (0-based, so the label index is
1-based), and no record's period label is ever empty (falsy). -/
theorem extract_C1 (ws : Sheet) (i : ℕ) (hi : i < 9) :
    (extractSheet ws).months.length = 9 ∧
    (extractSheet ws).opening.length = 9 ∧
    (extractSheet ws).inflows.length = 9 ∧
    (extractSheet ws).outflows.length = 9 ∧
    (extractSheet ws).net_cf.length = 9 ∧
    (extractSheet ws).closing.length = 9 ∧
    (ws.cell 4 (i + 2) = CellVal.blank →
      (extractSheet ws).months.getD i CellVal.blank =
        CellVal.str ("Month " ++ toString (i + 1))) ∧
    (ws.cell 5 (i + 2) = CellVal.blank →
      (extractSheet ws).opening.getD i CellVal.blank = CellVal.num 0) ∧
    (ws.cell 13 (i + 2) = CellVal.blank →
      (extractSheet ws).inflows.getD i CellVal.blank = CellVal.num 0) ∧
    (ws.cell 25 (i + 2) = CellVal.blank →
      (extractSheet ws).outflows.getD i CellVal.blank = CellVal.num 0) ∧
    (ws.cell 27 (i + 2) = CellVal.blank →
      (extractSheet ws).net_cf.getD i CellVal.blank = CellVal.num 0) ∧
    (ws.cell 29 (i + 2) = CellVal.blank →
      (extractSheet ws).closing.getD i CellVal.blank = CellVal.num 0) ∧
    ((extractSheet ws).months.getD i CellVal.blank).truthy = true := by
  have hmonth : (extractSheet ws).months.getD i CellVal.blank
      = monthLabel (ws.cell 4 (i + 2)) (i + 2) := by
    simp only [extractSheet]
    exact list_getD_ofFn _ i hi _
  have hrow : ∀ r : ℕ, (List.ofFn fun j : Fin 9 => orZero (ws.cell r (j.val + 2))).getD i
      CellVal.blank = orZero (ws.cell r (i + 2)) := fun r => list_getD_ofFn _ i hi _
  have h21 : i + 2 - 1 = i + 1 := by omega
  refine ⟨by simp [extractSheet], by simp [extractSheet], by simp [extractSheet],
    by simp [extractSheet], by simp [extractSheet], by simp [extractSheet],
    ?_, ?_, ?_, ?_, ?_, ?_, ?_⟩
  · intro hb
    rw [hmonth, hb]
    simp [monthLabel, CellVal.truthy, h21]
  · intro hb
    simp only [extractSheet]
    rw [hrow, hb]
    simp [orZero, CellVal.truthy]
  · intro hb
    simp only [extractSheet]
    rw [hrow, hb]
    simp [orZero, CellVal.truthy]
  · intro hb
    simp only [extractSheet]
    rw [hrow, hb]
    simp [orZero, CellVal.truthy]
  · intro hb
    simp only [extractSheet]
    rw [hrow, hb]
    simp [orZero, CellVal.truthy]
  · intro hb
    simp only [extractSheet]
    rw [hrow, hb]
    simp [orZero, CellVal.truthy]
  · rw [hmonth]
    exact monthLabel_truthy _ _

/-- Witness for C1: the theorem applied to the all-blank sheet at column
offset 0 produces the synthetic label "Month 1", a zero amount, and a
truthy label. -/
theorem extract_C1_witness :
    (0 : ℕ) < 9 ∧
    (extractSheet blankSheet).months.getD 0 CellVal.blank = CellVal.str "Month 1" ∧
    (extractSheet blankSheet).inflows.getD 0 CellVal.blank = CellVal.num 0 ∧
    ((extractSheet blankSheet).months.getD 0 CellVal.blank).truthy = true := by
  have h := extract_C1 blankSheet 0 (by decide)
  refine ⟨by decide, ?_, h.2.2.2.2.2.2.2.2.1 rfl, h.2.2.2.2.2.2.2.2.2.2.2.2⟩
  rw [h.2.2.2.2.2.2.1 rfl]
  decide

/-- Revenue growth rate (lines 151-155): compares the first and last
inflow values; the guard in the source is `iloc[0] > 0`, and the `else`
branch sets the rate to `0`.  `headI` is `iloc[0]`, `getLastD _ 0` is
`iloc[-1]` (the column always has 9 entries in the script). -/
def growth_rate (inflows : List ℚ) : ℚ :=
  if 0 < inflows.headI then ((inflows.getLastD 0 / inflows.headI) - 1) * 100 else 0

/-- Month-over-month growth of the base closing balances (lines 330-337):
for each index `i`, if `i > 0` and the previous closing balance is
strictly positive, the relative change in percent, else `0`. -/
def base_growth (closing : List ℚ) : List ℚ :=
  List.ofFn fun i : Fin closing.length =>
    if 0 < i.val ∧ 0 < closing.getD (i.val - 1) 0 then
      (closing.getD i.val 0 / closing.getD (i.val - 1) 0 - 1) * 100
    else 0

/-- `iloc[-1]` on a closing-balance column: the final balance of a
scenario (lines 206-208). -/
def final_closing (closing : List ℚ) : ℚ := closing.getLastD 0

/-- `risk_range = best_case - worst_case` (line 209): the optimistic
series structurally supplies best, the pessimistic worst. -/
def risk_range (optClosing pesClosing : List ℚ) : ℚ :=
  final_closing optClosing - final_closing pesClosing

/-- The scenario spread printed at line 216: `risk_range/base_case*100`
(the spec names this quantity `scenario_spread`). -/
def scenario_spread (optClosing baseClosing pesClosing : List ℚ) : ℚ :=
  risk_range optClosing pesClosing / final_closing baseClosing * 100

/-- Column mean, as pandas `.mean()`. -/
def sampleMean (l : List ℚ) : ℚ := l.sum / (l.length : ℚ)

/-- Sample variance, divisor N-1, the square of pandas `.std()`. -/
def sampleVariance (l : List ℚ) : ℚ :=
  ((l.map fun x => (x - sampleMean l) ^ 2).sum) / ((l.length : ℚ) - 1)

/-- The guard at line 234: the Pearson correlation is computed only when
`std() > 0` holds for both columns.  `std = √variance ≥ 0`, so
`std > 0` is equivalent to `variance > 0`, which is what we test here
(the value of the correlation itself involves a square root and is not
what the guard claim is about). -/
def correlation_defined (xs ys : List ℚ) : Bool :=
  decide (0 < sampleVariance xs) && decide (0 < sampleVariance ys)

/-- The `try` block at lines 120-131: extract the three scenario sheets
in order; the first failure aborts (the `except` calls `exit(1)`). -/
def extractAll (w : Workbook) :
    Except String (ScenarioSeries × ScenarioSeries × ScenarioSeries) :=
  match extract_scenario_data w "Skenario Base" with
  | .error e => .error e
  | .ok b =>
    match extract_scenario_data w "Skenario Optimistis" with
    | .error e => .error e
    | .ok o =>
      match extract_scenario_data w "Skenario Pesimistis" with
      | .error e => .error e
      | .ok p => .ok (b, o, p)

/-- The break-even sheet facts read at lines 263-266. -/
structure BreakEvenSnapshot where
  be_revenue : ℚ
  be_transactions : ℚ
  current_revenue : ℚ
  safety_margin : ℚ
deriving DecidableEq

/-- Numeric reading of a break-even cell after `value or 0`: blank and
falsy values become `0`; a nonempty string survives `or 0` and then
makes the arithmetic/formatting in the `try` block raise (`none`). -/
def cellNumOrZero : CellVal → Option ℚ
  | .blank => some 0
  | .num q => some q
  | .str s => if s = "" then some 0 else none

/-- The break-even `try` block (lines 261-286): a missing sheet or a
malformed (nonempty-string) cell raises inside the block, which is
caught, leaving break-even unavailable; otherwise the four facts are
read. -/
def extractBreakEven (w : Workbook) : Option BreakEvenSnapshot :=
  match w.sheets "Analisis Break-Even" with
  | none => none
  | some ws =>
    match cellNumOrZero (ws.cell 11 2), cellNumOrZero (ws.cell 10 2),
        cellNumOrZero (ws.cell 14 2), cellNumOrZero (ws.cell 18 2) with
    | some r, some t, some c, some m => some ⟨r, t, c, m⟩
    | _, _, _, _ => none

/-- Observable outcome of one run of the script: the process exit code,
whether the scenario comparison was reached (and on which series),
whether break-even facts were available, and whether the chart and the
two CSV exports were produced.  Render/export I/O failures are external
(disk, permissions) and are outside the model; their `try` blocks keep
the exit status at success either way. -/
structure RunReport where
  exitCode : ℕ
  comparison : Option (ScenarioSeries × ScenarioSeries × ScenarioSeries)
  breakEven : Option BreakEvenSnapshot
  chartProduced : Bool
  summaryExported : Bool
  scenarioExported : Bool
deriving DecidableEq

/-- The top-to-bottom script: a failed scenario extraction calls
`exit(1)` before any comparison (lines 129-131); otherwise the run
continues through comparison, the non-fatal break-even block, the chart
and the two exports, and finishes with exit status 0. -/
def run (w : Workbook) : RunReport :=
  match extractAll w with
  | .error _ => ⟨1, none, none, false, false, false⟩
  | .ok s => ⟨0, some s, extractBreakEven w, true, true, true⟩

/-- A workbook with no sheets at all. -/
def wbEmpty : Workbook := ⟨fun _ => none⟩

/-- A workbook holding exactly the three scenario sheets (all blank) and
no break-even sheet. -/
def wbNoBE : Workbook :=
  ⟨fun n =>
    if n == "Skenario Base" || n == "Skenario Optimistis" || n == "Skenario Pesimistis" then
      some blankSheet
    else none⟩

/-- A workbook holding only the base scenario sheet. -/
def wbBaseOnly : Workbook :=
  ⟨fun n => if n == "Skenario Base" then some blankSheet else none⟩

/-- Counterexample to C2 as stated: the source guard is `iloc[0] > 0`,
not `iloc[0] != 0`, so a strictly negative first inflow takes the
zero-return branch even though the claimed formula gives -200 there. -/
theorem growth_rate_C2_cex :
    ¬ ∀ l : List ℚ, l.headI ≠ 0 →
      growth_rate l = ((l.getLastD 0 / l.headI) - 1) * 100 := by
  intro h
  have hc := h [-1, 0, 0, 0, 0, 0, 0, 0, 1] (by decide)
  rw [growth_rate] at hc
  norm_num [List.headI, List.getLastD] at hc

/-- Claim C2 (amended): the growth rate equals
`(last/first - 1) * 100` whenever the first-period inflow is strictly
positive, and equals exactly 0 whenever the first-period inflow is less
than or equal to 0 (in particular when it is 0), for every sequence of
subsequent values. -/
theorem growth_rate_C2 (l : List ℚ) :
    (0 < l.headI → growth_rate l = ((l.getLastD 0 / l.headI) - 1) * 100) ∧
    (l.headI ≤ 0 → growth_rate l = 0) := by
  constructor
  · intro h
    rw [growth_rate, if_pos h]
  · intro h
    rw [growth_rate, if_neg (not_lt.mpr h)]

/-- Witness for C2 (amended): a series growing from 10 to 20 has growth
rate 100%, and a series starting at 0 has growth rate 0. -/
theorem growth_rate_C2_witness :
    (0 : ℚ) < ([10, 10, 10, 10, 10, 10, 10, 10, 20] : List ℚ).headI ∧
    growth_rate [10, 10, 10, 10, 10, 10, 10, 10, 20] = 100 ∧
    ([0, 5, 5, 5, 5, 5, 5, 5, 5] : List ℚ).headI ≤ 0 ∧
    growth_rate [0, 5, 5, 5, 5, 5, 5, 5, 5] = 0 := by
  refine ⟨by decide, ?_, by decide, (growth_rate_C2 _).2 (by decide)⟩
  rw [(growth_rate_C2 _).1 (by decide)]
  norm_num [List.headI, List.getLastD]

/-- Claim C10: the zero-return branch of the growth rate is taken for
every first-period inflow less than or equal to 0, in particular for
every strictly negative first value, regardless of the last value. -/
theorem growth_rate_C10 (l : List ℚ) (h : l.headI ≤ 0) : growth_rate l = 0 := by
  rw [growth_rate, if_neg (not_lt.mpr h)]

/-- Witness for C10: a series with strictly negative first inflow and
positive last inflow still has growth rate 0. -/
theorem growth_rate_C10_witness :
    ([-5, 0, 0, 0, 0, 0, 0, 0, 10] : List ℚ).headI ≤ 0 ∧
    growth_rate [-5, 0, 0, 0, 0, 0, 0, 0, 10] = 0 :=
  ⟨by decide, growth_rate_C10 _ (by decide)⟩

/-- Claim C3: the month-over-month growth of the base closing balances
at every index `i > 0` equals `(closing_i/closing_(i-1) - 1) * 100` when
the previous balance is strictly positive, else 0. -/
theorem base_growth_C3 (closing : List ℚ) (i : ℕ) (h0 : 0 < i)
    (hi : i < closing.length) :
    (base_growth closing).getD i 0 =
      if 0 < closing.getD (i - 1) 0 then
        (closing.getD i 0 / closing.getD (i - 1) 0 - 1) * 100
      else 0 := by
  rw [base_growth, list_getD_ofFn _ i hi]
  by_cases hp : 0 < closing.getD (i - 1) 0
  · rw [if_pos ⟨h0, hp⟩, if_pos hp]
  · rw [if_neg (fun hc => hp hc.2), if_neg hp]

/-- Witness for C3: for closing balances [100, 110, 0, 90, ...] (times
one million), the growth at index 2 is -100.0 and at index 3 is 0. -/
theorem base_growth_C3_witness :
    ((0 : ℕ) < 2 ∧ 2 < ([100000000, 110000000, 0, 90000000, 0, 0, 0, 0, 0] : List ℚ).length) ∧
    (base_growth [100000000, 110000000, 0, 90000000, 0, 0, 0, 0, 0]).getD 2 0 = -100 ∧
    (base_growth [100000000, 110000000, 0, 90000000, 0, 0, 0, 0, 0]).getD 3 0 = 0 := by
  refine ⟨⟨by decide, by decide⟩, ?_, ?_⟩
  · rw [base_growth_C3 _ 2 (by decide) (by decide)]
    norm_num [List.getD]
  · rw [base_growth_C3 _ 3 (by decide) (by decide)]
    norm_num [List.getD]

/-- Claim C4: the risk range is structurally the optimistic final
closing balance minus the pessimistic final closing balance, and the
scenario spread is `risk_range / base final balance * 100` whenever the
base final balance is nonzero. -/
theorem risk_C4 (optClosing baseClosing pesClosing : List ℚ)
    (h : final_closing baseClosing ≠ 0) :
    risk_range optClosing pesClosing =
      final_closing optClosing - final_closing pesClosing ∧
    scenario_spread optClosing baseClosing pesClosing =
      risk_range optClosing pesClosing / final_closing baseClosing * 100 :=
  ⟨rfl, rfl⟩

/-- Witness for C4: optimistic final 500M, base 300M, pessimistic 100M
give risk range 400M and spread 400/3 (about 133.3%). -/
theorem risk_C4_witness :
    final_closing [0, 0, 0, 0, 0, 0, 0, 0, 300000000] ≠ 0 ∧
    risk_range [0, 0, 0, 0, 0, 0, 0, 0, 500000000]
      [0, 0, 0, 0, 0, 0, 0, 0, 100000000] = 400000000 ∧
    scenario_spread [0, 0, 0, 0, 0, 0, 0, 0, 500000000]
      [0, 0, 0, 0, 0, 0, 0, 0, 300000000]
      [0, 0, 0, 0, 0, 0, 0, 0, 100000000] = 400 / 3 := by
  have h := risk_C4 [0, 0, 0, 0, 0, 0, 0, 0, 500000000]
    [0, 0, 0, 0, 0, 0, 0, 0, 300000000] [0, 0, 0, 0, 0, 0, 0, 0, 100000000] (by decide)
  refine ⟨by decide, ?_, ?_⟩
  · rw [h.1]
    norm_num [final_closing, List.getLastD]
  · rw [h.2, h.1]
    norm_num [final_closing, List.getLastD]

/-- Claim C5: if any of the three required scenario sheets is missing,
extraction fails and the whole run aborts with exit status 1 before any
scenario comparison; no partial results (comparison, break-even facts,
chart, exports) are produced. -/
theorem run_C5 (w : Workbook)
    (h : w.sheets "Skenario Base" = none ∨ w.sheets "Skenario Optimistis" = none ∨
      w.sheets "Skenario Pesimistis" = none) :
    (run w).exitCode = 1 ∧ (run w).comparison = none ∧ (run w).breakEven = none ∧
    (run w).chartProduced = false ∧ (run w).summaryExported = false ∧
    (run w).scenarioExported = false := by
  obtain ⟨e, he⟩ : ∃ e, extractAll w = Except.error e := by
    rcases h with h | h | h
    · exact ⟨_, by unfold extractAll extract_scenario_data; rw [h]⟩
    · cases hb : w.sheets "Skenario Base" with
      | none => exact ⟨_, by unfold extractAll extract_scenario_data; rw [hb]⟩
      | some sb => exact ⟨_, by unfold extractAll extract_scenario_data; rw [hb, h]⟩
    · cases hb : w.sheets "Skenario Base" with
      | none => exact ⟨_, by unfold extractAll extract_scenario_data; rw [hb]⟩
      | some sb =>
        cases ho : w.sheets "Skenario Optimistis" with
        | none => exact ⟨_, by unfold extractAll extract_scenario_data; rw [hb, ho]⟩
        | some so => exact ⟨_, by unfold extractAll extract_scenario_data; rw [hb, ho, h]⟩
  have hrun : run w = ⟨1, none, none, false, false, false⟩ := by
    unfold run
    rw [he]
  rw [hrun]
  exact ⟨rfl, rfl, rfl, rfl, rfl, rfl⟩

/-- Witness for C5: running on a workbook with no sheets aborts with
exit status 1 and produces nothing. -/
theorem run_C5_witness :
    (wbEmpty.sheets "Skenario Base" = none ∨ wbEmpty.sheets "Skenario Optimistis" = none ∨
      wbEmpty.sheets "Skenario Pesimistis" = none) ∧
    (run wbEmpty).exitCode = 1 ∧ (run wbEmpty).comparison = none ∧
    (run wbEmpty).breakEven = none ∧ (run wbEmpty).chartProduced = false ∧
    (run wbEmpty).summaryExported = false ∧ (run wbEmpty).scenarioExported = false :=
  ⟨Or.inl rfl, run_C5 wbEmpty (Or.inl rfl)⟩

/-- Claim C6: with all three scenario sheets present, a missing
break-even sheet or a malformed break-even cell does not abort the run:
break-even is reported unavailable, the chart and both export tables are
still produced, and the exit status remains success (0). -/
theorem run_C6 (w : Workbook)
    (hb : (w.sheets "Skenario Base").isSome = true)
    (ho : (w.sheets "Skenario Optimistis").isSome = true)
    (hp : (w.sheets "Skenario Pesimistis").isSome = true)
    (hbe : w.sheets "Analisis Break-Even" = none ∨
      ∃ ws, w.sheets "Analisis Break-Even" = some ws ∧
        (cellNumOrZero (ws.cell 11 2) = none ∨ cellNumOrZero (ws.cell 10 2) = none ∨
         cellNumOrZero (ws.cell 14 2) = none ∨ cellNumOrZero (ws.cell 18 2) = none)) :
    (run w).exitCode = 0 ∧ (run w).breakEven = none ∧ (run w).chartProduced = true ∧
    (run w).summaryExported = true ∧ (run w).scenarioExported = true := by
  obtain ⟨sb, hsb⟩ := Option.isSome_iff_exists.mp hb
  obtain ⟨so, hso⟩ := Option.isSome_iff_exists.mp ho
  obtain ⟨sp, hsp⟩ := Option.isSome_iff_exists.mp hp
  have hok : extractAll w = Except.ok (extractSheet sb, extractSheet so, extractSheet sp) := by
    unfold extractAll extract_scenario_data
    rw [hsb, hso, hsp]
  have hbe0 : extractBreakEven w = none := by
    rcases hbe with h | ⟨ws, hws, hcell⟩
    · unfold extractBreakEven
      rw [h]
    · unfold extractBreakEven
      rw [hws]
      rcases h1 : cellNumOrZero (ws.cell 11 2) with _ | r <;>
        rcases h2 : cellNumOrZero (ws.cell 10 2) with _ | t <;>
          rcases h3 : cellNumOrZero (ws.cell 14 2) with _ | c <;>
            rcases h4 : cellNumOrZero (ws.cell 18 2) with _ | m <;>
              simp_all
  have hrun : run w = ⟨0, some (extractSheet sb, extractSheet so, extractSheet sp),
      none, true, true, true⟩ := by
    unfold run
    rw [hok, hbe0]
  rw [hrun]
  exact ⟨rfl, rfl, rfl, rfl, rfl⟩

/-- Witness for C6: a workbook with the three scenario sheets but no
break-even sheet completes with exit status 0, break-even unavailable,
and all outputs produced. -/
theorem run_C6_witness :
    ((wbNoBE.sheets "Skenario Base").isSome = true ∧
     (wbNoBE.sheets "Skenario Optimistis").isSome = true ∧
     (wbNoBE.sheets "Skenario Pesimistis").isSome = true ∧
     wbNoBE.sheets "Analisis Break-Even" = none) ∧
    (run wbNoBE).exitCode = 0 ∧ (run wbNoBE).breakEven = none ∧
    (run wbNoBE).chartProduced = true ∧ (run wbNoBE).summaryExported = true ∧
    (run wbNoBE).scenarioExported = true :=
  ⟨⟨rfl, rfl, rfl, rfl⟩, run_C6 wbNoBE rfl rfl rfl (Or.inl rfl)⟩

/-- The sample variance of a constant column is zero (its std is zero). -/
theorem variance_replicate (n : ℕ) (c : ℚ) : sampleVariance (List.replicate n c) = 0 := by
  rcases Nat.eq_zero_or_pos n with h | h
  · subst h
    simp [sampleVariance, sampleMean]
  · have hn : (n : ℚ) ≠ 0 := Nat.cast_ne_zero.mpr h.ne'
    have hmean : sampleMean (List.replicate n c) = c := by
      rw [sampleMean, List.sum_replicate, List.length_replicate, nsmul_eq_mul,
        mul_comm, mul_div_assoc, div_self hn, mul_one]
    have hmap : (List.replicate n c).map (fun x => (x - sampleMean (List.replicate n c)) ^ 2)
        = List.replicate n 0 := by
      rw [List.map_replicate, hmean]
      simp
    rw [sampleVariance, hmap, List.sum_replicate]
    simp

/-- Claim C8: the Pearson correlation between two columns is computed
only when both columns have nonzero sample variance (the source guard
`std() > 0` for both columns at line 234); whenever either column is
constant, for any constant value, the guard fails and no correlation is
computed. -/
theorem correlation_C8 (xs ys : List ℚ) :
    (correlation_defined xs ys = true →
      0 < sampleVariance xs ∧ 0 < sampleVariance ys) ∧
    (∀ c : ℚ, xs = List.replicate xs.length c → correlation_defined xs ys = false) ∧
    (∀ c : ℚ, ys = List.replicate ys.length c → correlation_defined xs ys = false) := by
  refine ⟨?_, ?_, ?_⟩
  · intro h
    rw [correlation_defined, Bool.and_eq_true, decide_eq_true_eq, decide_eq_true_eq] at h
    exact h
  · intro c hc
    have hv : sampleVariance xs = 0 := by
      rw [hc]
      exact variance_replicate _ _
    rw [correlation_defined, hv]
    simp
  · intro c hc
    have hv : sampleVariance ys = 0 := by
      rw [hc]
      exact variance_replicate _ _
    rw [correlation_defined, hv]
    simp

/-- Witness for C8: a constant column [1, 1] against [0, 5] leaves the
correlation undefined. -/
theorem correlation_C8_witness :
    (([1, 1] : List ℚ) = List.replicate ([1, 1] : List ℚ).length 1) ∧
    correlation_defined [1, 1] [0, 5] = false :=
  ⟨by decide, (correlation_C8 [1, 1] [0, 5]).2.1 1 (by decide)⟩

/-- Claim C9: extraction is a pure, deterministic function of the
workbook contents: any two workbooks whose sheet lookup agrees on the
requested name (in particular the same workbook read twice) extract to
identical scenario series, every field of every record included. -/
theorem extract_C9 (w1 w2 : Workbook) (name : String)
    (h : w1.sheets name = w2.sheets name) :
    extract_scenario_data w1 name = extract_scenario_data w2 name := by
  unfold extract_scenario_data
  rw [h]

/-- Witness for C9: two different workbooks carrying the same base sheet
extract identically on it. -/
theorem extract_C9_witness :
    wbNoBE.sheets "Skenario Base" = wbBaseOnly.sheets "Skenario Base" ∧
    extract_scenario_data wbNoBE "Skenario Base" =
      extract_scenario_data wbBaseOnly "Skenario Base" :=
  ⟨rfl, extract_C9 wbNoBE wbBaseOnly "Skenario Base" rfl⟩
